import Mathlib

set_option maxHeartbeats 1000000

/-
Verification development for the U-Net segmentation library (src/unet.py).

The code is embedded shallowly:
  * shape-level semantics of tensor operators (Shape, conv2dS, ...): every
    operator returns an Option Shape, with none on the validity checks the
    numeric backend performs (channel mismatch, too-small spatial size);
  * the control flow of EncoderBlocks.forward / DecoderBlocks.forward /
    UNet.forward is embedded generically over the tensor type, mirroring the
    Python loops statement by statement, and is then instantiated at
    Option Shape (shape claims) and at a symbolic term algebra (data-flow
    claims);
  * module trees with symbolic parameter values embed construction-time
    effects (weight re-initialization, gradient freezing);
  * a rank-1 rational-valued tensor model embeds the value-level claims
    (ensemble averaging, dropout at probability zero).
-/

/-- Shape of a rank-4 tensor (batch, channels, height, width), as used
throughout src/unet.py. -/
structure Shape where
  batch : Nat
  channels : Nat
  height : Nat
  width : Nat
deriving DecidableEq

/-- Shape-level tensor: none models a numeric-backend failure. -/
abbrev OS := Option Shape

/-- Shape semantics of nn.Conv2d(cin, cout, k, stride=1, padding=p). The
backend rejects a channel mismatch and a padded input smaller than the
kernel. -/
def conv2dS (cin cout k p : Nat) (s : Shape) : OS :=
  if s.channels = cin ∧ k ≤ s.height + 2 * p ∧ k ≤ s.width + 2 * p then
    some ⟨s.batch, cout, s.height + 2 * p - k + 1, s.width + 2 * p - k + 1⟩
  else none

/-- Shape semantics of nn.MaxPool2d(kernel_size=2, stride=2): the backend
requires both spatial dims to be at least the kernel size. -/
def maxPool2x2S (s : Shape) : OS :=
  if 2 ≤ s.height ∧ 2 ≤ s.width then
    some ⟨s.batch, s.channels, s.height / 2, s.width / 2⟩
  else none

/-- Shape semantics of nn.ConvTranspose2d(cin, cout, kernel_size=2, stride=2):
output spatial size is (d - 1) * 2 + 2 = 2 * d. -/
def convT2x2S (cin cout : Nat) (s : Shape) : OS :=
  if s.channels = cin ∧ 1 ≤ s.height ∧ 1 ≤ s.width then
    some ⟨s.batch, cout, 2 * s.height, 2 * s.width⟩
  else none

/-- Shape semantics of nn.BatchNorm2d(nf): identity on shape, channel count
must equal the configured number of features. -/
def batchNorm2dS (nf : Nat) (s : Shape) : OS :=
  if s.channels = nf then some s else none

/-- Shape semantics of nn.ReLU: identity. -/
def reluS (s : Shape) : OS := some s

/-- Shape semantics of nn.Dropout: identity on shape. -/
def dropS (s : Shape) : OS := some s

/-- Shape semantics of torch.cat([a, b], dim=1): channels add, all other
dims must agree. -/
def catS (a b : Shape) : OS :=
  if a.batch = b.batch ∧ a.height = b.height ∧ a.width = b.width then
    some ⟨a.batch, a.channels + b.channels, a.height, a.width⟩
  else none

/-- Shape semantics of DoubleConv2d.forward with the default BatchNorm2d
norm layer: conv → norm → relu → conv → norm → relu
(src/unet.py lines 33-43). -/
def DoubleConv2d.shapeF (cin cout k : Nat) (s : Shape) : OS :=
  (((((conv2dS cin cout k 1 s).bind (batchNorm2dS cout)).bind reluS).bind
      (conv2dS cout cout k 1)).bind (batchNorm2dS cout)).bind reluS

/-- EncoderBlock.forward at shape level: x = conv(x); p = pool(x);
p = drop(p); return (x, p) (src/unet.py lines 61-65). -/
def EncoderBlock.shapeBlock (cin cout k : Nat) (t : OS) : OS × OS :=
  let x := t.bind (DoubleConv2d.shapeF cin cout k)
  let p := x.bind maxPool2x2S
  (x, p.bind dropS)

/-- DecoderBlock.forward at shape level: x = trans(x1);
x = conv(cat([x2, x], dim=1)); x = drop(x) (src/unet.py lines 90-94). -/
def DecoderBlock.shapeBlock (cin cout k upIn upOut : Nat) (x1 x2 : OS) : OS :=
  let x := x1.bind (convT2x2S upIn upOut)
  let cc : OS :=
    match x2, x with
    | some a, some b => catS a b
    | _, _ => none
  (cc.bind (DoubleConv2d.shapeF cin cout k)).bind dropS

/-- Mirrors the EncoderBlocks constructor loop over filters[:-1] when no
backbone is used: in_channels starts at channels and is threaded through
(src/unet.py lines 116-121).  The block builder is abstract so that the same
construction serves the shape model and the symbolic model. -/
def mkChain {β : Type} (blockF : Nat → Nat → β) : Nat → List Nat → List β
  | _, [] => []
  | cin, cout :: rest => blockF cin cout :: mkChain blockF cout rest

/-- The class attribute EncoderBlocks.backbone_layers (src/unet.py line 98). -/
def EncoderBlocks.backboneLayers : List String :=
  ["layer1", "layer2", "layer3", "layer4"]

/-- Plain-mode loop body of EncoderBlocks.forward (src/unet.py lines 139-144):
for encoder in self.encoder: x, p = encoder(p); x_out.append(x); e_out = p.
The second component is the running p of the last executed iteration. -/
def EncoderBlocks.plainGo {T : Type} (b : T → T × T) (bs : List (T → T × T))
    (p : T) : List T × T :=
  match bs with
  | [] => ([(b p).1], (b p).2)
  | b2 :: rest =>
    let r := EncoderBlocks.plainGo b2 rest (b p).2
    ((b p).1 :: r.1, r.2)

/-- Plain-mode EncoderBlocks.forward.  When the block list is empty the loop
never runs, e_out is never bound, and the return statement raises a Python
NameError: modelled as none. -/
def EncoderBlocks.plainForward {T : Type} (blocks : List (T → T × T)) (x : T) :
    Option (List T × T) :=
  match blocks with
  | [] => none
  | b :: bs => some (EncoderBlocks.plainGo b bs x)

/-- Backbone-mode loop of EncoderBlocks.forward (src/unet.py lines 149-153):
for name, module in self.encoder.named_children():
  if name in self.backbone_layers: p = module(p); x_out.append(p); e_out = p.
The Option in the accumulator records whether e_out was ever assigned. -/
def EncoderBlocks.backboneGo {T : Type} (acc : List T) (eOpt : Option T)
    (p : T) : List (String × (T → T)) → List T × Option T
  | [] => (acc, eOpt)
  | (nm, f) :: rest =>
    if EncoderBlocks.backboneLayers.contains nm then
      EncoderBlocks.backboneGo (acc ++ [f p]) (some (f p)) (f p) rest
    else
      EncoderBlocks.backboneGo acc eOpt p rest

/-- Backbone-mode EncoderBlocks.forward (src/unet.py lines 145-154):
x = self.inputs(x); p = self.pool(x); x_out.append(x); then the named-children
loop.  If no child is named layer1..layer4, e_out is unbound (NameError):
modelled as none. -/
def EncoderBlocks.backboneForward {T : Type} (inputs pool : T → T)
    (children : List (String × (T → T))) (x : T) : Option (List T × T) :=
  let x1 := inputs x
  let p := pool x1
  match EncoderBlocks.backboneGo [x1] none p children with
  | (_, none) => none
  | (xs, some e) => some (xs, e)

/-- DecoderBlocks constructor (src/unet.py lines 167-176): one block per
i in range(len(filters) - 1) mapping filters[-1-i] → filters[-2-i], plus, in
backbone mode, one extra block filters[1] → filters[0] with both up-channel
overrides set to filters[0]. -/
def DecoderBlocks.mkShape (filters : List Nat) (backbone : Bool) (k : Nat) :
    List (OS → OS → OS) :=
  (List.range (filters.length - 1)).map (fun i =>
    DecoderBlock.shapeBlock (filters.getD (filters.length - 1 - i) 0)
      (filters.getD (filters.length - 2 - i) 0) k
      (filters.getD (filters.length - 1 - i) 0)
      (filters.getD (filters.length - 2 - i) 0))
  ++ (if backbone then
        [DecoderBlock.shapeBlock (filters.getD 1 0) (filters.getD 0 0) k
          (filters.getD 0 0) (filters.getD 0 0)]
      else [])

/-- DecoderBlocks.forward loop (src/unet.py lines 181-186):
for i, decoder in enumerate(self.decoder): x = x_out[-1-i];
if no backbone: x = self.pool(x); d = decoder(d, x). -/
def DecoderBlocks.goShape (backbone : Bool) (xOut : List OS) :
    Nat → OS → List (OS → OS → OS) → OS
  | _, d, [] => d
  | i, d, blk :: rest =>
    let x := xOut.getD (xOut.length - 1 - i) none
    let x2 := if backbone then x else x.bind maxPool2x2S
    DecoderBlocks.goShape backbone xOut (i + 1) (blk d x2) rest

/-- DecoderBlocks.forward (src/unet.py lines 178-187): d = self.pool(c),
then the decoder loop. -/
def DecoderBlocks.forwardShape (backbone : Bool) (blocks : List (OS → OS → OS))
    (xOut : List OS) (c : OS) : OS :=
  DecoderBlocks.goShape backbone xOut 0 (c.bind maxPool2x2S) blocks

/-- The class attribute UNet.filters (src/unet.py line 191). -/
def UNet.defaultFilters : List Nat := [64, 128, 256, 512, 1024]

/-- Output head of UNet (src/unet.py lines 214-217):
ConvTranspose2d(filters[0], filters[0], 2, 2) then
Conv2d(filters[0], num_classes, kernel_size=1). -/
def UNet.outHeadShape (f0 numClasses : Nat) (d : OS) : OS :=
  (d.bind (convT2x2S f0 f0)).bind (conv2dS f0 numClasses 1 0)

/-- UNet.forward in plain mode (no backbone) at shape level
(src/unet.py lines 232-236), with the default filters, kernel 3 and
BatchNorm2d. -/
def UNet.forwardShapePlain (channels numClasses : Nat) (s : Shape) : OS :=
  let filters := UNet.defaultFilters
  let blocks := mkChain (fun ci co => EncoderBlock.shapeBlock ci co 3)
    channels filters.dropLast
  match EncoderBlocks.plainForward blocks (some s) with
  | none => none
  | some (xOut, eOut) =>
    let c := eOut.bind (DoubleConv2d.shapeF
      (filters.getD (filters.length - 2) 0)
      (filters.getD (filters.length - 1) 0) 3)
    let d := DecoderBlocks.forwardShape false
      (DecoderBlocks.mkShape filters false 3) xOut c
    UNet.outHeadShape (filters.getD 0 0) numClasses d

/-- The backbones registry (src/unet.py lines 10-16), keeping each backbone
name together with its declared filter-width sequence. -/
def backbonesRegistry : List (String × List Nat) :=
  [("resnet18", [64, 128, 256, 512, 1024]),
   ("resnet34", [64, 128, 256, 512, 1024]),
   ("resnet50", [64, 256, 512, 1024, 2048]),
   ("resnet101", [64, 256, 512, 1024, 2048]),
   ("resnet152", [64, 256, 512, 1024, 2048])]

/-- Modelled from the spec: the backbone provider module (resnet.py, not part
of src/) returns a ResNet-style network whose stem convolution is a 7x7
stride-2 padding-3 convolution.  Shape semantics of that strided
convolution. -/
def conv2dStride2S (cin cout k p : Nat) (s : Shape) : OS :=
  if s.channels = cin ∧ k ≤ s.height + 2 * p ∧ k ≤ s.width + 2 * p then
    some ⟨s.batch, cout, (s.height + 2 * p - k) / 2 + 1,
      (s.width + 2 * p - k) / 2 + 1⟩
  else none

/-- Modelled from the spec: the backbone's own downsampling layer, a 3x3
stride-2 padding-1 max pooling, at shape level. -/
def maxPool3x3s2S (s : Shape) : OS :=
  if 1 ≤ s.height ∧ 1 ≤ s.width then
    some ⟨s.batch, s.channels, (s.height + 2 - 3) / 2 + 1,
      (s.width + 2 - 3) / 2 + 1⟩
  else none

/-- Modelled from the spec: the stem of the backbone (initial convolution,
initial normalization, initial activation), wrapped by EncoderBlocks as
self.inputs (src/unet.py lines 129-133); it maps the raw input channels to
the stem width, halving the spatial size. -/
def ResNetShape.stemS (channels stemW : Nat) (t : OS) : OS :=
  ((t.bind (conv2dStride2S channels stemW 7 3)).bind
    (batchNorm2dS stemW)).bind reluS

/-- Modelled from the spec: a backbone stage layerN producing a feature map
of the declared output width; its first 3x3 padding-1 convolution uses the
given stride (1 for layer1, 2 for layer2..layer4), so the stage keeps or
halves the spatial size. -/
def ResNetShape.layerS (cin cout stride : Nat) (t : OS) : OS :=
  t.bind fun s =>
    if s.channels = cin ∧ 3 ≤ s.height + 2 ∧ 3 ≤ s.width + 2 ∧ 1 ≤ stride then
      some ⟨s.batch, cout, (s.height + 2 - 3) / stride + 1,
        (s.width + 2 - 3) / stride + 1⟩
    else none

/-- Modelled from the spec: the named children of the backbone network, in
definition order (conv1, bn1, relu, pool, layer1..layer4), each paired with
its shape semantics; the declared width contract makes the stem produce
fs[0] channels and layerN produce fs[N] channels.  Only the layerN entries
are used by the EncoderBlocks loop; the others are filtered out by name. -/
def ResNetShape.childrenS (channels : Nat) (fs : List Nat) :
    List (String × (OS → OS)) :=
  [("conv1", fun t => t.bind (conv2dStride2S channels (fs.getD 0 0) 7 3)),
   ("bn1", fun t => t.bind (batchNorm2dS (fs.getD 0 0))),
   ("relu", fun t => t.bind reluS),
   ("pool", fun t => t.bind maxPool3x3s2S),
   ("layer1", ResNetShape.layerS (fs.getD 0 0) (fs.getD 1 0) 1),
   ("layer2", ResNetShape.layerS (fs.getD 1 0) (fs.getD 2 0) 2),
   ("layer3", ResNetShape.layerS (fs.getD 2 0) (fs.getD 3 0) 2),
   ("layer4", ResNetShape.layerS (fs.getD 3 0) (fs.getD 4 0) 2)]

/-- Backbone-mode encoder stack at shape level: EncoderBlocks.forward with
the spec-modelled backbone whose declared filter sequence is fs. -/
def UNet.encShapeBackbone (channels : Nat) (fs : List Nat) (s : Shape) :
    Option (List OS × OS) :=
  EncoderBlocks.backboneForward
    (ResNetShape.stemS channels (fs.getD 0 0))
    (fun t => t.bind maxPool3x3s2S)
    (ResNetShape.childrenS channels fs) (some s)

/-- UNet.forward in backbone mode at shape level (src/unet.py lines 232-236):
encoder stack, center DoubleConv2d(filters[-2], filters[-1]), decoder stack
with the extra backbone block, output head. -/
def UNet.forwardShapeBackbone (channels numClasses : Nat) (fs : List Nat)
    (s : Shape) : OS :=
  match UNet.encShapeBackbone channels fs s with
  | none => none
  | some (xOut, eOut) =>
    let c := eOut.bind (DoubleConv2d.shapeF
      (fs.getD (fs.length - 2) 0) (fs.getD (fs.length - 1) 0) 3)
    let d := DecoderBlocks.forwardShape true
      (DecoderBlocks.mkShape fs true 3) xOut c
    UNet.outHeadShape (fs.getD 0 0) numClasses d

/-- Symbolic tensors: a free term algebra used to instantiate the generic
encoder forward, so that data-flow claims (which tensor ends up where) can be
stated and decided. -/
inductive SymT : Type where
  | inp : SymT
  | dconv : Nat → SymT → SymT
  | pooled : SymT → SymT
  | dropped : SymT → SymT
  | stem : SymT → SymT
  | layer : Nat → SymT → SymT
deriving DecidableEq

/-- Symbolic EncoderBlock with output width co: the pair (conv output,
dropout of pool of conv output), exactly the data flow of
EncoderBlock.forward (src/unet.py lines 61-65).  The conv node is tagged
with the stage's output width. -/
def SymT.encBlock (_ci co : Nat) (p : SymT) : SymT × SymT :=
  (SymT.dconv co p, SymT.dropped (SymT.pooled (SymT.dconv co p)))

/-- Symbolic plain-mode encoder block list for the default filter sequence,
built by the same constructor loop as the source (src/unet.py
lines 116-121). -/
def SymT.plainBlocks (channels : Nat) : List (SymT → SymT × SymT) :=
  mkChain SymT.encBlock channels UNet.defaultFilters.dropLast

/-- Modelled from the spec: the named children of the backbone network in
definition order (conv1, bn1, relu, pool, layer1..layer4), here with symbolic
stage semantics; the non-layer entries are present so that the name filter of
the forward loop is exercised. -/
def SymT.resnetChildren : List (String × (SymT → SymT)) :=
  [("conv1", fun t => t), ("bn1", fun t => t), ("relu", fun t => t),
   ("pool", fun t => t),
   ("layer1", SymT.layer 1), ("layer2", SymT.layer 2),
   ("layer3", SymT.layer 3), ("layer4", SymT.layer 4)]

/-- Symbolic parameter values: fresh is the default initialization performed
by the layer constructors; bbParam is a value set by the backbone constructor
(pretrained or not); kaiming stands for nn.init.kaiming_normal_ with
mode fan_out and relu nonlinearity; constV c stands for
nn.init.constant_(-, c). -/
inductive PVal : Type where
  | fresh : PVal
  | bbParam : Nat → PVal
  | kaiming : PVal
  | constV : Int → PVal
deriving DecidableEq

/-- A learnable parameter: its (symbolic) value and its requires_grad flag. -/
structure Param where
  val : PVal
  requiresGrad : Bool
deriving DecidableEq

/-- A parameter as created by a layer constructor: default value,
requires_grad = True. -/
def freshP : Param := ⟨PVal.fresh, true⟩

/-- NNModule trees, with the module kinds the model constructs or the
initialization pass inspects.  conv2d is nn.Conv2d, convT2d is
nn.ConvTranspose2d (NOT an instance of nn.Conv2d), batchNorm2d / inst2d /
groupN are the three normalization classes matched by the initialization
pass; group collects submodules (nn.Sequential, nn.ModuleList, or the named
children of a composite module). -/
inductive NNModule : Type where
  | conv2d : Nat → Nat → Nat → Param → Option Param → NNModule
  | convT2d : Nat → Nat → Nat → Param → Option Param → NNModule
  | batchNorm2d : Nat → Param → Param → NNModule
  | inst2d : Param → Param → NNModule
  | groupN : Param → Param → NNModule
  | relu : NNModule
  | maxPool2d : NNModule
  | dropout : NNModule
  | group : List NNModule → NNModule

mutual

/-- The parameters owned by a module and all its submodules, in traversal
order (module.parameters()). -/
def NNModule.params : NNModule → List Param
  | .conv2d _ _ _ w b => w :: b.toList
  | .convT2d _ _ _ w b => w :: b.toList
  | .batchNorm2d _ w b => [w, b]
  | .inst2d w b => [w, b]
  | .groupN w b => [w, b]
  | .relu => []
  | .maxPool2d => []
  | .dropout => []
  | .group ms => NNModule.paramsList ms

def NNModule.paramsList : List NNModule → List Param
  | [] => []
  | m :: ms => NNModule.params m ++ NNModule.paramsList ms

end

mutual

/-- Sets requires_grad = False on every parameter of the module, as in
`for param in self.encoder.parameters(): param.requires_grad = False`
(src/unet.py lines 125-127). -/
def NNModule.freezeAll : NNModule → NNModule
  | .conv2d ci co k w b =>
    .conv2d ci co k ⟨w.val, false⟩ (b.map fun p => ⟨p.val, false⟩)
  | .convT2d ci co k w b =>
    .convT2d ci co k ⟨w.val, false⟩ (b.map fun p => ⟨p.val, false⟩)
  | .batchNorm2d nf w b => .batchNorm2d nf ⟨w.val, false⟩ ⟨b.val, false⟩
  | .inst2d w b => .inst2d ⟨w.val, false⟩ ⟨b.val, false⟩
  | .groupN w b => .groupN ⟨w.val, false⟩ ⟨b.val, false⟩
  | .relu => .relu
  | .maxPool2d => .maxPool2d
  | .dropout => .dropout
  | .group ms => .group (NNModule.freezeAllList ms)

def NNModule.freezeAllList : List NNModule → List NNModule
  | [] => []
  | m :: ms => NNModule.freezeAll m :: NNModule.freezeAllList ms

end

mutual

/-- The weight-initialization pass (src/unet.py lines 222-230) applied to a
module tree.  The Python code iterates every module of every target and
re-applies the same constant assignments, which is idempotent, so one
recursive traversal has the same effect:
  isinstance(m, nn.Conv2d): kaiming_normal_(weight, fan_out, relu),
    constant_(bias, 0) when bias is not None — nn.ConvTranspose2d is NOT an
    instance of nn.Conv2d, so convT2d is left untouched;
  isinstance(m, (nn.BatchNorm2d, nn.InstanceNorm2d, nn.GroupNorm)):
    constant_(weight, 1), constant_(bias, 0).
The in-place init functions change values, never requires_grad. -/
def NNModule.initApply : NNModule → NNModule
  | .conv2d ci co k w b =>
    .conv2d ci co k ⟨PVal.kaiming, w.requiresGrad⟩
      (b.map fun p => ⟨PVal.constV 0, p.requiresGrad⟩)
  | .convT2d ci co k w b => .convT2d ci co k w b
  | .batchNorm2d nf w b =>
    .batchNorm2d nf ⟨PVal.constV 1, w.requiresGrad⟩
      ⟨PVal.constV 0, b.requiresGrad⟩
  | .inst2d w b =>
    .inst2d ⟨PVal.constV 1, w.requiresGrad⟩ ⟨PVal.constV 0, b.requiresGrad⟩
  | .groupN w b =>
    .groupN ⟨PVal.constV 1, w.requiresGrad⟩ ⟨PVal.constV 0, b.requiresGrad⟩
  | .relu => .relu
  | .maxPool2d => .maxPool2d
  | .dropout => .dropout
  | .group ms => .group (NNModule.initApplyList ms)

def NNModule.initApplyList : List NNModule → List NNModule
  | [] => []
  | m :: ms => NNModule.initApply m :: NNModule.initApplyList ms

end

/-- DoubleConv2d constructor (src/unet.py lines 32-40) as a module tree:
Conv2d(cin, cout, k, bias=bias) → BatchNorm2d(cout) → ReLU →
Conv2d(cout, cout, k, bias=bias) → BatchNorm2d(cout) → ReLU, with the
default norm layer. -/
def DoubleConv2d.mkTree (cin cout k : Nat) (bias : Bool) : NNModule :=
  .group [.conv2d cin cout k freshP (if bias then some freshP else none),
          .batchNorm2d cout freshP freshP, .relu,
          .conv2d cout cout k freshP (if bias then some freshP else none),
          .batchNorm2d cout freshP freshP, .relu]

/-- EncoderBlock constructor (src/unet.py lines 56-59): DoubleConv2d,
MaxPool2d, Dropout. -/
def EncoderBlock.mkTree (cin cout k : Nat) (bias : Bool) : NNModule :=
  .group [DoubleConv2d.mkTree cin cout k bias, .maxPool2d, .dropout]

/-- DecoderBlock constructor (src/unet.py lines 80-88):
ConvTranspose2d(upIn, upOut, 2, 2, bias=bias), DoubleConv2d(cin, cout),
Dropout, where the up-channel overrides default to (cin, cout). -/
def DecoderBlock.mkTree (cin cout k : Nat) (bias : Bool) (upIn upOut : Nat) :
    NNModule :=
  .group [.convT2d upIn upOut 2 freshP (if bias then some freshP else none),
          DoubleConv2d.mkTree cin cout k bias, .dropout]

/-- Plain-mode EncoderBlocks constructor (src/unet.py lines 116-121) as a
module tree. -/
def EncoderBlocks.mkTreePlain (channels : Nat) (filters : List Nat) (k : Nat)
    (bias : Bool) : NNModule :=
  .group (mkChain (fun ci co => EncoderBlock.mkTree ci co k bias)
    channels filters.dropLast)

/-- Modelled from the spec: the backbone network returned by the provider
(resnet.py, not part of src/) exposes sub-modules conv1, bn1, relu, pool and
the four stages layer1..layer4; its parameter values are whatever the
backbone constructor set (pretrained or not). -/
structure BackboneNet where
  conv1 : NNModule
  bn1 : NNModule
  reluM : NNModule
  poolM : NNModule
  layer1 : NNModule
  layer2 : NNModule
  layer3 : NNModule
  layer4 : NNModule

/-- The backbone as one module (the value stored in self.encoder in backbone
mode), with its children in definition order. -/
def BackboneNet.asModule (b : BackboneNet) : NNModule :=
  .group [b.conv1, b.bn1, b.reluM, b.poolM,
          b.layer1, b.layer2, b.layer3, b.layer4]

/-- Freezing every parameter of the backbone, field by field. -/
def BackboneNet.freezeNet (b : BackboneNet) : BackboneNet :=
  ⟨b.conv1.freezeAll, b.bn1.freezeAll, b.reluM.freezeAll, b.poolM.freezeAll,
   b.layer1.freezeAll, b.layer2.freezeAll, b.layer3.freezeAll,
   b.layer4.freezeAll⟩

/-- Backbone-mode EncoderBlocks constructor (src/unet.py lines 122-134):
self.encoder = the backbone (frozen first when freeze_grad, so the aliased
stem modules in self.inputs and self.pool refer to the already-frozen
submodules); self.inputs = Sequential(conv1, bn1, relu); self.pool =
encoder.pool. -/
def EncoderBlocks.mkTreeBackbone (b : BackboneNet) (freezeGrad : Bool) :
    NNModule :=
  let e := if freezeGrad then b.freezeNet else b
  .group [e.asModule, .group [e.conv1, e.bn1, e.reluM], e.poolM]

/-- Center block of UNet (src/unet.py line 212):
DoubleConv2d(filters[-2], filters[-1]). -/
def UNet.centerTree (filters : List Nat) (k : Nat) (bias : Bool) : NNModule :=
  DoubleConv2d.mkTree (filters.getD (filters.length - 2) 0)
    (filters.getD (filters.length - 1) 0) k bias

/-- DecoderBlocks constructor (src/unet.py lines 167-176) as a module tree. -/
def DecoderBlocks.mkTree (filters : List Nat) (backbone : Bool) (k : Nat)
    (bias : Bool) : NNModule :=
  .group ((List.range (filters.length - 1)).map (fun i =>
    DecoderBlock.mkTree (filters.getD (filters.length - 1 - i) 0)
      (filters.getD (filters.length - 2 - i) 0) k bias
      (filters.getD (filters.length - 1 - i) 0)
      (filters.getD (filters.length - 2 - i) 0))
  ++ (if backbone then
        [DecoderBlock.mkTree (filters.getD 1 0) (filters.getD 0 0) k bias
          (filters.getD 0 0) (filters.getD 0 0)]
      else []))

/-- Output head of UNet (src/unet.py lines 214-217):
ConvTranspose2d(filters[0], filters[0], 2, 2) and
Conv2d(filters[0], num_classes, 1); both use PyTorch's default bias=True. -/
def UNet.outTree (f0 numClasses : Nat) : NNModule :=
  .group [.convT2d f0 f0 2 freshP (some freshP),
          .conv2d f0 numClasses 1 freshP (some freshP)]

/-- UNet constructor (src/unet.py lines 206-230) as a module tree.  filters
is the default sequence in plain mode and the backbone's declared sequence
in backbone mode (self.filters = self.encoder.filters).  When init_weights
is set, init_target = operate(backbone is None, self.modules(),
[self.center, self.decoder, self.out]): in plain mode the whole tree is
re-initialized, in backbone mode only center, decoder and out. -/
def UNet.mkTree (channels numClasses : Nat) (backbone : Option BackboneNet)
    (bbFilters : List Nat) (freezeGrad : Bool) (k : Nat) (bias : Bool)
    (initWeights : Bool) : NNModule :=
  let filters := match backbone with
    | none => UNet.defaultFilters
    | some _ => bbFilters
  let enc := match backbone with
    | none => EncoderBlocks.mkTreePlain channels UNet.defaultFilters k bias
    | some b => EncoderBlocks.mkTreeBackbone b freezeGrad
  let center := UNet.centerTree filters k bias
  let dec := DecoderBlocks.mkTree filters backbone.isSome k bias
  let out := UNet.outTree (filters.getD 0 0) numClasses
  if initWeights then
    match backbone with
    | none => NNModule.initApply (.group [enc, center, dec, out])
    | some _ => .group [enc, center.initApply, dec.initApply, out.initApply]
  else .group [enc, center, dec, out]

/-- The first child of the assembled model: the encoder stack. -/
def UNet.encoderPart : NNModule → NNModule
  | .group (e :: _) => e
  | _ => .relu

/-- The second child of the assembled model: the center block. -/
def UNet.centerPart : NNModule → NNModule
  | .group (_ :: c :: _) => c
  | _ => .relu

/-- The third child of the assembled model: the decoder stack. -/
def UNet.decoderPart : NNModule → NNModule
  | .group (_ :: _ :: d :: _) => d
  | _ => .relu

/-- The fourth child of the assembled model: the output head. -/
def UNet.outPart : NNModule → NNModule
  | .group (_ :: _ :: _ :: o :: _) => o
  | _ => .relu

mutual

/-- The parameter values (weight, then bias when present) of every
nn.ConvTranspose2d module in the tree, in traversal order. -/
def NNModule.convTParamVals : NNModule → List PVal
  | .convT2d _ _ _ w b => w.val :: (b.map Param.val).toList
  | .conv2d _ _ _ _ _ => []
  | .batchNorm2d _ _ _ => []
  | .inst2d _ _ => []
  | .groupN _ _ => []
  | .relu => []
  | .maxPool2d => []
  | .dropout => []
  | .group ms => NNModule.convTParamValsList ms

def NNModule.convTParamValsList : List NNModule → List PVal
  | [] => []
  | m :: ms => NNModule.convTParamVals m ++ NNModule.convTParamValsList ms

end

mutual

/-- The state the initialization pass actually leaves behind: every nn.Conv2d
has a kaiming-normal weight and (when present) a zero bias, every
normalization module has weight 1 and bias 0, and every nn.ConvTranspose2d
is left at the default initialization of its constructor. -/
def NNModule.initOK : NNModule → Bool
  | .conv2d _ _ _ w b =>
    decide (w.val = PVal.kaiming) &&
      (match b with
       | none => true
       | some p => decide (p.val = PVal.constV 0))
  | .convT2d _ _ _ w b =>
    decide (w.val = PVal.fresh) &&
      (match b with
       | none => true
       | some p => decide (p.val = PVal.fresh))
  | .batchNorm2d _ w b =>
    decide (w.val = PVal.constV 1) && decide (b.val = PVal.constV 0)
  | .inst2d w b =>
    decide (w.val = PVal.constV 1) && decide (b.val = PVal.constV 0)
  | .groupN w b =>
    decide (w.val = PVal.constV 1) && decide (b.val = PVal.constV 0)
  | .relu => true
  | .maxPool2d => true
  | .dropout => true
  | .group ms => NNModule.initOKList ms

def NNModule.initOKList : List NNModule → Bool
  | [] => true
  | m :: ms => NNModule.initOK m && NNModule.initOKList ms

end

/-- Rank-1 value-level tensor: a flattened list of rational entries.  This is
the granularity at which the ensemble-averaging and dropout claims speak. -/
abbrev VTensor := List ℚ

/-- Value semantics of torch.stack(ts) (new leading axis): fails on an empty
list and on ragged member shapes, otherwise keeps the rows. -/
def torchStack (ts : List VTensor) : Option (List VTensor) :=
  match ts with
  | [] => none
  | t :: rest =>
    if ∀ r ∈ rest, r.length = t.length then some (t :: rest) else none

/-- Value semantics of torch.mean(rows, dim=0): the elementwise arithmetic
mean over the leading axis. -/
def torchMeanDim0 (rows : List VTensor) : VTensor :=
  match rows with
  | [] => []
  | r0 :: _ =>
    (List.range r0.length).map
      (fun j => ((rows.map (fun r => r.getD j 0)).sum) / (rows.length : ℚ))

/-- EnsembleUNet.forward (src/unet.py lines 244-246):
out = [unet(x) for unet in self.unet_models];
return torch.mean(torch.stack(out), dim=0).  The member models are abstract
functions from an input to a value tensor. -/
def EnsembleUNet.forwardV {I : Type} (models : List (I → VTensor)) (x : I) :
    Option VTensor :=
  (torchStack (models.map (fun m => m x))).map torchMeanDim0

/-- Value semantics of nn.Dropout(p) in training mode, with the Bernoulli
draws made explicit: entry j is kept (and rescaled by 1 / (1 - p)) when the
j-th draw succeeds, and zeroed otherwise. -/
def dropoutGo (p : ℚ) (mask : Nat → Bool) (j : Nat) : VTensor → VTensor
  | [] => []
  | v :: rest =>
    (if mask j then v / (1 - p) else 0) :: dropoutGo p mask (j + 1) rest

/-- nn.Dropout(p) applied to a value tensor under the given Bernoulli draws. -/
def dropoutV (p : ℚ) (mask : Nat → Bool) (x : VTensor) : VTensor :=
  dropoutGo p mask 0 x

/-- A mask is a possible outcome of the Bernoulli(1 - p) draws of
nn.Dropout(p): when p = 0 every draw keeps its entry almost surely, so the
only possible mask is all-true.  (For p > 0 any mask can occur.) -/
def MaskDrawnFrom (p : ℚ) (mask : Nat → Bool) : Prop :=
  p = 0 → ∀ j, mask j = true

/-- EncoderBlock.forward at value level (src/unet.py lines 61-65), generic
over the deterministic conv and pool submodules: x = conv(x); p = pool(x);
p = drop(p); return (x, p). -/
def EncoderBlock.forwardV (convF poolF : VTensor → VTensor) (p : ℚ)
    (mask : Nat → Bool) (x : VTensor) : VTensor × VTensor :=
  let xc := convF x
  let pp := poolF xc
  (xc, dropoutV p mask pp)

/-- DecoderBlock.forward at value level (src/unet.py lines 90-94), generic
over the deterministic trans and conv submodules, with torch.cat on rank-1
value tensors being list append: x = trans(x1); x = conv(cat([x2, x]));
x = drop(x). -/
def DecoderBlock.forwardV (transF convF : VTensor → VTensor) (p : ℚ)
    (mask : Nat → Bool) (x1 x2 : VTensor) : VTensor :=
  dropoutV p mask (convF (x2 ++ transF x1))

/-- A small concrete backbone instance (used to instantiate the freeze-grad
theorem): every module holds constructor-set parameter values. -/
def sampleBackbone : BackboneNet :=
  ⟨.conv2d 3 64 7 ⟨PVal.bbParam 0, true⟩ none,
   .batchNorm2d 64 ⟨PVal.bbParam 1, true⟩ ⟨PVal.bbParam 2, true⟩,
   .relu, .maxPool2d,
   .conv2d 64 128 3 ⟨PVal.bbParam 3, true⟩ none,
   .conv2d 128 256 3 ⟨PVal.bbParam 4, true⟩ none,
   .conv2d 256 512 3 ⟨PVal.bbParam 5, true⟩ none,
   .conv2d 512 1024 3 ⟨PVal.bbParam 6, true⟩ none⟩

mutual

theorem NNModule.freezeAll_vals : (m : NNModule) →
    (NNModule.freezeAll m).params.map Param.val = m.params.map Param.val
  | .conv2d ci co k w b => by
    cases b <;> simp [NNModule.freezeAll, NNModule.params]
  | .convT2d ci co k w b => by
    cases b <;> simp [NNModule.freezeAll, NNModule.params]
  | .batchNorm2d nf w b => by simp [NNModule.freezeAll, NNModule.params]
  | .inst2d w b => by simp [NNModule.freezeAll, NNModule.params]
  | .groupN w b => by simp [NNModule.freezeAll, NNModule.params]
  | .relu => by simp [NNModule.freezeAll, NNModule.params]
  | .maxPool2d => by simp [NNModule.freezeAll, NNModule.params]
  | .dropout => by simp [NNModule.freezeAll, NNModule.params]
  | .group ms => by
    simp only [NNModule.freezeAll, NNModule.params]
    exact NNModule.freezeAllList_vals ms

theorem NNModule.freezeAllList_vals : (ms : List NNModule) →
    (NNModule.paramsList (NNModule.freezeAllList ms)).map Param.val =
      (NNModule.paramsList ms).map Param.val
  | [] => by simp [NNModule.freezeAllList, NNModule.paramsList]
  | m :: ms => by
    simp only [NNModule.freezeAllList, NNModule.paramsList, List.map_append]
    rw [NNModule.freezeAll_vals m, NNModule.freezeAllList_vals ms]

end

mutual

theorem NNModule.freezeAll_grad : (m : NNModule) →
    (NNModule.freezeAll m).params.all (fun p => !p.requiresGrad) = true
  | .conv2d ci co k w b => by
    cases b <;> simp [NNModule.freezeAll, NNModule.params]
  | .convT2d ci co k w b => by
    cases b <;> simp [NNModule.freezeAll, NNModule.params]
  | .batchNorm2d nf w b => by simp [NNModule.freezeAll, NNModule.params]
  | .inst2d w b => by simp [NNModule.freezeAll, NNModule.params]
  | .groupN w b => by simp [NNModule.freezeAll, NNModule.params]
  | .relu => by simp [NNModule.freezeAll, NNModule.params]
  | .maxPool2d => by simp [NNModule.freezeAll, NNModule.params]
  | .dropout => by simp [NNModule.freezeAll, NNModule.params]
  | .group ms => by
    simp only [NNModule.freezeAll, NNModule.params]
    exact NNModule.freezeAllList_grad ms

theorem NNModule.freezeAllList_grad : (ms : List NNModule) →
    (NNModule.paramsList (NNModule.freezeAllList ms)).all
      (fun p => !p.requiresGrad) = true
  | [] => by simp [NNModule.freezeAllList, NNModule.paramsList]
  | m :: ms => by
    simp only [NNModule.freezeAllList, NNModule.paramsList, List.all_append]
    rw [NNModule.freezeAll_grad m, NNModule.freezeAllList_grad ms]
    rfl

end

theorem conv2dS_apply (cin cout k p b c h w : Nat) (hc : c = cin)
    (h1 : k ≤ h + 2 * p) (h2 : k ≤ w + 2 * p) :
    conv2dS cin cout k p ⟨b, c, h, w⟩ =
      some ⟨b, cout, h + 2 * p - k + 1, w + 2 * p - k + 1⟩ := by
  simp [conv2dS, hc, h1, h2]

theorem dconv3_apply (cin cout b h w : Nat) (h1 : 1 ≤ h) (h2 : 1 ≤ w) :
    DoubleConv2d.shapeF cin cout 3 ⟨b, cin, h, w⟩ = some ⟨b, cout, h, w⟩ := by
  have e1 : h + 2 * 1 - 3 + 1 = h := by omega
  have e2 : w + 2 * 1 - 3 + 1 = w := by omega
  rw [DoubleConv2d.shapeF,
    conv2dS_apply cin cout 3 1 b cin h w rfl (by omega) (by omega), e1, e2]
  simp [batchNorm2dS, reluS]
  rw [conv2dS_apply cout cout 3 1 b cout h w rfl (by omega) (by omega), e1, e2]
  simp [batchNorm2dS, reluS]

theorem pool_apply (b c h w : Nat) (h1 : 2 ≤ h) (h2 : 2 ≤ w) :
    maxPool2x2S ⟨b, c, h, w⟩ = some ⟨b, c, h / 2, w / 2⟩ := by
  simp [maxPool2x2S, h1, h2]

theorem convT_apply (cin cout b h w : Nat) (h1 : 1 ≤ h) (h2 : 1 ≤ w) :
    convT2x2S cin cout ⟨b, cin, h, w⟩ = some ⟨b, cout, 2 * h, 2 * w⟩ := by
  simp [convT2x2S, h1, h2]

theorem cat_apply (b c1 c2 h w : Nat) :
    catS ⟨b, c1, h, w⟩ ⟨b, c2, h, w⟩ = some ⟨b, c1 + c2, h, w⟩ := by
  simp [catS]

theorem conv1x1_apply (cin cout b h w : Nat) (h1 : 1 ≤ h) (h2 : 1 ≤ w) :
    conv2dS cin cout 1 0 ⟨b, cin, h, w⟩ = some ⟨b, cout, h, w⟩ := by
  have e1 : h + 2 * 0 - 1 + 1 = h := by omega
  have e2 : w + 2 * 0 - 1 + 1 = w := by omega
  rw [conv2dS_apply cin cout 1 0 b cin h w rfl (by omega) (by omega), e1, e2]

/-- C1: for every plain-mode U-Net (no backbone) with input channel count C,
num_classes N and the default filter sequence [64, 128, 256, 512, 1024], a
forward pass on an input of shape (batch, C, H, W) with H and W positive
multiples of 32 returns a tensor of shape (batch, N, H, W). -/
theorem C1_plain_forward_shape (b channels numClasses h w : Nat)
    (hh : 1 ≤ h) (hw : 1 ≤ w) :
    UNet.forwardShapePlain channels numClasses ⟨b, channels, 32 * h, 32 * w⟩ =
      some ⟨b, numClasses, 32 * h, 32 * w⟩ := by
  have d1 : 32 * h / 2 = 16 * h := by omega
  have d2 : 16 * h / 2 = 8 * h := by omega
  have d3 : 8 * h / 2 = 4 * h := by omega
  have d4 : 4 * h / 2 = 2 * h := by omega
  have d5 : 2 * h / 2 = h := by omega
  have d1w : 32 * w / 2 = 16 * w := by omega
  have d2w : 16 * w / 2 = 8 * w := by omega
  have d3w : 8 * w / 2 = 4 * w := by omega
  have d4w : 4 * w / 2 = 2 * w := by omega
  have d5w : 2 * w / 2 = w := by omega
  have m1 : 2 * (2 * h) = 4 * h := by omega
  have m2 : 2 * (4 * h) = 8 * h := by omega
  have m3 : 2 * (8 * h) = 16 * h := by omega
  have m4 : 2 * (16 * h) = 32 * h := by omega
  have m1w : 2 * (2 * w) = 4 * w := by omega
  have m2w : 2 * (4 * w) = 8 * w := by omega
  have m3w : 2 * (8 * w) = 16 * w := by omega
  have m4w : 2 * (16 * w) = 32 * w := by omega
  have g1 : (1 : Nat) ≤ 32 * h := by omega
  have g2 : (2 : Nat) ≤ 32 * h := by omega
  have g3 : (1 : Nat) ≤ 16 * h := by omega
  have g4 : (2 : Nat) ≤ 16 * h := by omega
  have g5 : (1 : Nat) ≤ 8 * h := by omega
  have g6 : (2 : Nat) ≤ 8 * h := by omega
  have g7 : (1 : Nat) ≤ 4 * h := by omega
  have g8 : (2 : Nat) ≤ 4 * h := by omega
  have g9 : (1 : Nat) ≤ 2 * h := by omega
  have g10 : (2 : Nat) ≤ 2 * h := by omega
  have g1w : (1 : Nat) ≤ 32 * w := by omega
  have g2w : (2 : Nat) ≤ 32 * w := by omega
  have g3w : (1 : Nat) ≤ 16 * w := by omega
  have g4w : (2 : Nat) ≤ 16 * w := by omega
  have g5w : (1 : Nat) ≤ 8 * w := by omega
  have g6w : (2 : Nat) ≤ 8 * w := by omega
  have g7w : (1 : Nat) ≤ 4 * w := by omega
  have g8w : (2 : Nat) ≤ 4 * w := by omega
  have g9w : (1 : Nat) ≤ 2 * w := by omega
  have g10w : (2 : Nat) ≤ 2 * w := by omega
  simp only [UNet.forwardShapePlain, UNet.defaultFilters, List.dropLast,
    mkChain, EncoderBlocks.plainForward, EncoderBlocks.plainGo,
    EncoderBlock.shapeBlock, DecoderBlocks.mkShape, DecoderBlocks.forwardShape,
    DecoderBlocks.goShape, UNet.outHeadShape, List.length_cons,
    List.length_nil, List.range_succ, List.range_zero, List.map_append,
    List.map_cons, List.map_nil, List.getD, List.get?, List.nil_append,
    List.cons_append, List.append_nil]
  simp [dconv3_apply, pool_apply, convT_apply, cat_apply, conv1x1_apply,
    dropS, DecoderBlock.shapeBlock,
    d1, d2, d3, d4, d5, d1w, d2w, d3w, d4w, d5w,
    m1, m2, m3, m4, m1w, m2w, m3w, m4w,
    g1, g2, g3, g4, g5, g6, g7, g8, g9, g10,
    g1w, g2w, g3w, g4w, g5w, g6w, g7w, g8w, g9w, g10w, hh, hw]

/-- Witness for C1 at batch 1, C = 3, N = 2, H = W = 32. -/
theorem C1_plain_forward_shape_witness :
    1 ≤ 1 ∧
    UNet.forwardShapePlain 3 2 ⟨1, 3, 32 * 1, 32 * 1⟩ =
      some ⟨1, 2, 32 * 1, 32 * 1⟩ :=
  ⟨by decide, C1_plain_forward_shape 1 3 2 1 1 (by decide) (by decide)⟩

/-- C2 counterexample: with the resnet18 entry of the registry and its
declared width contract, the backbone-mode forward pass does not complete:
the encoder stack itself succeeds (its deepest feature has 1024 channels,
the last filter width), but the center block was built for 512 input
channels, so the forward pass fails instead of reaching the output head. -/
theorem C2_counterexample :
    UNet.encShapeBackbone 3 [64, 128, 256, 512, 1024] ⟨1, 3, 224, 224⟩ =
      some ([some ⟨1, 64, 112, 112⟩, some ⟨1, 128, 56, 56⟩,
             some ⟨1, 256, 28, 28⟩, some ⟨1, 512, 14, 14⟩,
             some ⟨1, 1024, 7, 7⟩], some ⟨1, 1024, 7, 7⟩) ∧
    UNet.forwardShapeBackbone 3 2 [64, 128, 256, 512, 1024]
      ⟨1, 3, 224, 224⟩ = none :=
  ⟨by decide, by decide⟩

/-- C2 (amended): for every registered backbone satisfying the declared width
contract, the encoder stack hands the center block a deepest feature whose
channel count is the LAST filter width, while the center block expects the
second-to-last width; the two differ in every registry entry, so the forward
pass fails with a channel mismatch at the center block instead of completing
to the output head. -/
theorem C2_center_channel_mismatch (nm : String) (fs : List Nat)
    (hmem : (nm, fs) ∈ backbonesRegistry) :
    ((UNet.encShapeBackbone 3 fs ⟨1, 3, 224, 224⟩).bind
        (fun r => r.2.map Shape.channels)) = some (fs.getD 4 0) ∧
    fs.getD 4 0 ≠ fs.getD 3 0 ∧
    UNet.forwardShapeBackbone 3 2 fs ⟨1, 3, 224, 224⟩ = none := by
  simp only [backbonesRegistry, List.mem_cons, List.not_mem_nil, or_false,
    Prod.mk.injEq] at hmem
  rcases hmem with ⟨h1, h2⟩ | ⟨h1, h2⟩ | ⟨h1, h2⟩ | ⟨h1, h2⟩ | ⟨h1, h2⟩ <;>
    subst h2 <;> exact ⟨by decide, by decide, by decide⟩

/-- Witness for C2 at the resnet18 registry entry. -/
theorem C2_center_channel_mismatch_witness :
    ((UNet.encShapeBackbone 3 [64, 128, 256, 512, 1024]
        ⟨1, 3, 224, 224⟩).bind (fun r => r.2.map Shape.channels)) =
      some (([64, 128, 256, 512, 1024] : List Nat).getD 4 0) ∧
    ([64, 128, 256, 512, 1024] : List Nat).getD 4 0 ≠
      ([64, 128, 256, 512, 1024] : List Nat).getD 3 0 ∧
    UNet.forwardShapeBackbone 3 2 [64, 128, 256, 512, 1024]
      ⟨1, 3, 224, 224⟩ = none :=
  C2_center_channel_mismatch "resnet18" [64, 128, 256, 512, 1024] (by decide)

/-- C3: in backbone mode the skip-feature list returned by the encoder stack
has exactly 5 entries — the stem output followed by the outputs of
layer1..layer4 — and the deepest feature is the last entry; in plain mode the
list has exactly 4 entries, each stage's pre-pool (double-conv) output
shallowest first, and the deepest feature is the 4th stage's
post-pool-and-dropout output, which is not an entry of the list. -/
theorem C3_encoder_skip_structure (channels : Nat) (x : SymT) :
    (EncoderBlocks.backboneForward SymT.stem SymT.pooled SymT.resnetChildren x =
      some ([SymT.stem x,
             SymT.layer 1 (SymT.pooled (SymT.stem x)),
             SymT.layer 2 (SymT.layer 1 (SymT.pooled (SymT.stem x))),
             SymT.layer 3 (SymT.layer 2 (SymT.layer 1 (SymT.pooled (SymT.stem x)))),
             SymT.layer 4 (SymT.layer 3 (SymT.layer 2 (SymT.layer 1 (SymT.pooled (SymT.stem x)))))],
            SymT.layer 4 (SymT.layer 3 (SymT.layer 2 (SymT.layer 1 (SymT.pooled (SymT.stem x))))))) ∧
    (EncoderBlocks.plainForward (SymT.plainBlocks channels) x =
      some ([SymT.dconv 64 x,
             SymT.dconv 128 (SymT.dropped (SymT.pooled (SymT.dconv 64 x))),
             SymT.dconv 256 (SymT.dropped (SymT.pooled (SymT.dconv 128 (SymT.dropped (SymT.pooled (SymT.dconv 64 x)))))),
             SymT.dconv 512 (SymT.dropped (SymT.pooled (SymT.dconv 256 (SymT.dropped (SymT.pooled (SymT.dconv 128 (SymT.dropped (SymT.pooled (SymT.dconv 64 x)))))))))],
            SymT.dropped (SymT.pooled (SymT.dconv 512 (SymT.dropped (SymT.pooled (SymT.dconv 256 (SymT.dropped (SymT.pooled (SymT.dconv 128 (SymT.dropped (SymT.pooled (SymT.dconv 64 x))))))))))))) ∧
    SymT.dropped (SymT.pooled (SymT.dconv 512 (SymT.dropped (SymT.pooled (SymT.dconv 256 (SymT.dropped (SymT.pooled (SymT.dconv 128 (SymT.dropped (SymT.pooled (SymT.dconv 64 x))))))))))) ∉
      [SymT.dconv 64 x,
       SymT.dconv 128 (SymT.dropped (SymT.pooled (SymT.dconv 64 x))),
       SymT.dconv 256 (SymT.dropped (SymT.pooled (SymT.dconv 128 (SymT.dropped (SymT.pooled (SymT.dconv 64 x)))))),
       SymT.dconv 512 (SymT.dropped (SymT.pooled (SymT.dconv 256 (SymT.dropped (SymT.pooled (SymT.dconv 128 (SymT.dropped (SymT.pooled (SymT.dconv 64 x)))))))))] := by
  refine ⟨rfl, rfl, ?_⟩
  simp

/-- C4 counterexample: on a backbone-mode forward pass of the encoder stack
(spec-modelled backbone children, input SymT.inp) the skip list has 5
entries, not 4, and the deepest feature IS an entry of the list (its last),
contradicting the claim that layer4's output is never a list entry. -/
theorem C4_counterexample :
    ((EncoderBlocks.backboneForward SymT.stem SymT.pooled SymT.resnetChildren
        SymT.inp).map (fun r => r.1.length)) = some 5 ∧
    ((EncoderBlocks.backboneForward SymT.stem SymT.pooled SymT.resnetChildren
        SymT.inp).map (fun r => r.1.length)) ≠ some 4 ∧
    ((EncoderBlocks.backboneForward SymT.stem SymT.pooled SymT.resnetChildren
        SymT.inp).map (fun r => decide (r.2 ∈ r.1))) = some true := by
  refine ⟨by decide, by decide, by decide⟩

/-- C4 (amended): for every backbone-mode forward pass of the encoder stack,
the skip-feature list has exactly 5 entries, at indices 0..4 holding the stem
output and the outputs of layer1..layer4, and layer4's output is returned
both as the last list entry and as the separate deepest feature. -/
theorem C4_backbone_skip_list (x : SymT) :
    ((EncoderBlocks.backboneForward SymT.stem SymT.pooled SymT.resnetChildren
        x).map (fun r => r.1.length)) = some 5 ∧
    ((EncoderBlocks.backboneForward SymT.stem SymT.pooled SymT.resnetChildren
        x).map (fun r => r.1.getD 0 SymT.inp)) = some (SymT.stem x) ∧
    ((EncoderBlocks.backboneForward SymT.stem SymT.pooled SymT.resnetChildren
        x).map (fun r => r.1.getD 1 SymT.inp)) =
      some (SymT.layer 1 (SymT.pooled (SymT.stem x))) ∧
    ((EncoderBlocks.backboneForward SymT.stem SymT.pooled SymT.resnetChildren
        x).map (fun r => r.1.getD 2 SymT.inp)) =
      some (SymT.layer 2 (SymT.layer 1 (SymT.pooled (SymT.stem x)))) ∧
    ((EncoderBlocks.backboneForward SymT.stem SymT.pooled SymT.resnetChildren
        x).map (fun r => r.1.getD 3 SymT.inp)) =
      some (SymT.layer 3 (SymT.layer 2 (SymT.layer 1 (SymT.pooled (SymT.stem x))))) ∧
    ((EncoderBlocks.backboneForward SymT.stem SymT.pooled SymT.resnetChildren
        x).map (fun r => r.1.getD 4 SymT.inp)) =
      some (SymT.layer 4 (SymT.layer 3 (SymT.layer 2 (SymT.layer 1 (SymT.pooled (SymT.stem x)))))) ∧
    ((EncoderBlocks.backboneForward SymT.stem SymT.pooled SymT.resnetChildren
        x).map (fun r => decide (r.1.getD 4 SymT.inp = r.2))) = some true := by
  refine ⟨rfl, rfl, rfl, rfl, rfl, rfl, ?_⟩
  simp [EncoderBlocks.backboneForward, EncoderBlocks.backboneGo,
    SymT.resnetChildren, EncoderBlocks.backboneLayers]

/-- C5 counterexample: in the plain-mode U-Net with channels 3, classes 2 and
init_weights true, the transposed convolutions (4 decoder up-convolutions, the
output-head up-convolution and its bias) keep their default constructor
values: none of them is Kaiming-initialized and the output-head transposed
convolution's bias is not zeroed, contradicting the claim that every
convolution module including the transposed ones is re-initialized. -/
theorem C5_counterexample :
    NNModule.convTParamVals (UNet.mkTree 3 2 none [] false 3 false true) =
      [PVal.fresh, PVal.fresh, PVal.fresh, PVal.fresh, PVal.fresh,
       PVal.fresh] ∧
    PVal.kaiming ∉
      NNModule.convTParamVals (UNet.mkTree 3 2 none [] false 3 false true) ∧
    PVal.constV 0 ∉
      NNModule.convTParamVals (UNet.mkTree 3 2 none [] false 3 false true) := by
  refine ⟨by decide, by decide, by decide⟩

/-- C5 (amended): for every U-Net constructed with init_weights true and no
backbone, immediately after construction every nn.Conv2d module has a
Kaiming-normal (fan-out, relu) weight and, when a bias is present, a zero
bias, and every normalization module has scale 1 and shift 0 — while every
nn.ConvTranspose2d module (decoder up-convolutions and the output-head
up-convolution) is NOT re-initialized and keeps its default constructor
values. -/
theorem C5_plain_init_state (channels numClasses k : Nat) (bias : Bool) :
    NNModule.initOK
      (UNet.mkTree channels numClasses none [] false k bias true) = true := by
  cases bias <;> rfl

theorem mkTreeBackbone_freeze_eq (b : BackboneNet) :
    EncoderBlocks.mkTreeBackbone b true =
      (EncoderBlocks.mkTreeBackbone b false).freezeAll := rfl

/-- C6: for every U-Net constructed with init_weights true and a backbone,
the initialization pass modifies no parameter of the backbone encoder — the
encoder part's parameter values equal those set by the backbone constructor
(whether or not freeze_grad additionally cleared requires_grad) — and the
assembled model is exactly the untouched encoder next to the re-initialized
center block, decoder stack and output head. -/
theorem C6_backbone_untouched (b : BackboneNet) (channels numClasses : Nat)
    (fs : List Nat) (freezeGrad : Bool) (k : Nat) (bias : Bool) :
    ((UNet.encoderPart (UNet.mkTree channels numClasses (some b) fs freezeGrad
        k bias true)).params.map Param.val =
      (EncoderBlocks.mkTreeBackbone b false).params.map Param.val) ∧
    UNet.mkTree channels numClasses (some b) fs freezeGrad k bias true =
      .group [EncoderBlocks.mkTreeBackbone b freezeGrad,
              (UNet.centerTree fs k bias).initApply,
              (DecoderBlocks.mkTree fs true k bias).initApply,
              (UNet.outTree (fs.getD 0 0) numClasses).initApply] := by
  refine ⟨?_, rfl⟩
  cases freezeGrad with
  | false => rfl
  | true =>
    show (EncoderBlocks.mkTreeBackbone b true).params.map Param.val = _
    rw [mkTreeBackbone_freeze_eq]
    exact NNModule.freezeAll_vals _

/-- C7: for every U-Net constructed in backbone mode with freeze_grad true
(filters taken from any registry entry), every parameter of the backbone
encoder part has requires_grad false at construction time, while every
parameter of the center block, the decoder stack and the output head has
requires_grad true. -/
theorem C7_freeze_grad (b : BackboneNet) (nm : String) (fs : List Nat)
    (hmem : (nm, fs) ∈ backbonesRegistry) (channels numClasses : Nat) :
    ((UNet.encoderPart (UNet.mkTree channels numClasses (some b) fs true 3
        false true)).params.all (fun p => !p.requiresGrad) = true) ∧
    ((UNet.centerPart (UNet.mkTree channels numClasses (some b) fs true 3
        false true)).params.all (fun p => p.requiresGrad) = true) ∧
    ((UNet.decoderPart (UNet.mkTree channels numClasses (some b) fs true 3
        false true)).params.all (fun p => p.requiresGrad) = true) ∧
    ((UNet.outPart (UNet.mkTree channels numClasses (some b) fs true 3
        false true)).params.all (fun p => p.requiresGrad) = true) := by
  have henc : (UNet.encoderPart (UNet.mkTree channels numClasses (some b) fs
      true 3 false true)).params.all (fun p => !p.requiresGrad) = true := by
    show (EncoderBlocks.mkTreeBackbone b true).params.all
      (fun p => !p.requiresGrad) = true
    rw [mkTreeBackbone_freeze_eq]
    exact NNModule.freezeAll_grad _
  simp only [backbonesRegistry, List.mem_cons, List.not_mem_nil, or_false,
    Prod.mk.injEq] at hmem
  rcases hmem with ⟨h1, h2⟩ | ⟨h1, h2⟩ | ⟨h1, h2⟩ | ⟨h1, h2⟩ | ⟨h1, h2⟩ <;>
    subst h2 <;> exact ⟨henc, rfl, rfl, rfl⟩

/-- Witness for C7 at a concrete backbone and the resnet18 registry entry. -/
theorem C7_freeze_grad_witness :
    ((UNet.encoderPart (UNet.mkTree 3 2 (some sampleBackbone)
        [64, 128, 256, 512, 1024] true 3 false true)).params.all
      (fun p => !p.requiresGrad) = true) ∧
    ((UNet.centerPart (UNet.mkTree 3 2 (some sampleBackbone)
        [64, 128, 256, 512, 1024] true 3 false true)).params.all
      (fun p => p.requiresGrad) = true) ∧
    ((UNet.decoderPart (UNet.mkTree 3 2 (some sampleBackbone)
        [64, 128, 256, 512, 1024] true 3 false true)).params.all
      (fun p => p.requiresGrad) = true) ∧
    ((UNet.outPart (UNet.mkTree 3 2 (some sampleBackbone)
        [64, 128, 256, 512, 1024] true 3 false true)).params.all
      (fun p => p.requiresGrad) = true) :=
  C7_freeze_grad sampleBackbone "resnet18" [64, 128, 256, 512, 1024]
    (by decide) 3 2

theorem getD_replicate (v : ℚ) : ∀ (L j : Nat), j < L →
    (List.replicate L v).getD j 0 = v
  | L + 1, 0, _ => rfl
  | L + 1, j + 1, h => getD_replicate v L j (by omega)

theorem ensembleV_eq (models : List (VTensor → VTensor)) (x : VTensor)
    (L : Nat) (hne : models ≠ []) (hlen : ∀ m ∈ models, (m x).length = L) :
    EnsembleUNet.forwardV models x =
      some ((List.range L).map (fun j =>
        ((models.map (fun m => (m x).getD j 0)).sum) /
          (models.length : ℚ))) := by
  cases models with
  | nil => exact absurd rfl hne
  | cons m0 rest =>
    have h0 : (m0 x).length = L := hlen m0 (by simp)
    have hall : ∀ r ∈ rest.map (fun m => m x), r.length = (m0 x).length := by
      intro r hr
      rcases List.mem_map.mp hr with ⟨m, hm, rfl⟩
      rw [hlen m (by simp [hm]), h0]
    unfold EnsembleUNet.forwardV torchStack
    simp only [List.map_cons]
    rw [if_pos hall]
    simp only [Option.map_some']
    unfold torchMeanDim0
    simp only [h0, List.map_cons, List.length_cons, List.length_map,
      List.map_map, Function.comp]
    rfl

theorem ensembleV_replicate (vs : List ℚ) (L : Nat) (x : VTensor)
    (hne : vs ≠ []) :
    EnsembleUNet.forwardV (vs.map (fun v _ => List.replicate L v)) x =
      some (List.replicate L (vs.sum / (vs.length : ℚ))) := by
  have hlen : ∀ m ∈ vs.map (fun v (_ : VTensor) => List.replicate L v),
      (m x).length = L := by
    intro m hm
    rcases List.mem_map.mp hm with ⟨v, hv, rfl⟩
    simp
  rw [ensembleV_eq (vs.map (fun v _ => List.replicate L v)) x L
    (by simpa using hne) hlen]
  congr 1
  have hpt : ∀ j ∈ List.range L,
      (((vs.map (fun v (_ : VTensor) => List.replicate L v)).map
        (fun m => (m x).getD j 0)).sum) /
          (((vs.map (fun v (_ : VTensor) => List.replicate L v)).length : ℚ)) =
        vs.sum / (vs.length : ℚ) := by
    intro j hj
    have hjL : j < L := List.mem_range.mp hj
    have h2 : ((vs.map (fun v (_ : VTensor) => List.replicate L v)).map
        (fun m => (m x).getD j 0)) = vs.map (fun v => v) := by
      rw [List.map_map]
      exact List.map_congr_left (fun v _ => getD_replicate v L j hjL)
    rw [h2, List.map_id', List.length_map]
  rw [List.map_congr_left hpt]
  rw [show (List.range L).map (fun _ => vs.sum / (vs.length : ℚ)) =
    List.replicate (List.range L).length (vs.sum / (vs.length : ℚ)) from
      List.map_const' _ _]
  rw [List.length_range]

/-- C8: EnsembleUNet.forward equals the elementwise arithmetic mean of its
members' outputs whenever all member outputs have identical shape; in
particular, members returning constant tensors with values v1..vK yield the
constant tensor (v1 + ... + vK) / K. -/
theorem C8_ensemble_mean :
    (∀ (models : List (VTensor → VTensor)) (x : VTensor) (L : Nat),
      models ≠ [] → (∀ m ∈ models, (m x).length = L) →
      EnsembleUNet.forwardV models x =
        some ((List.range L).map (fun j =>
          ((models.map (fun m => (m x).getD j 0)).sum) /
            (models.length : ℚ)))) ∧
    (∀ (vs : List ℚ) (L : Nat) (x : VTensor), vs ≠ [] →
      EnsembleUNet.forwardV (vs.map (fun v _ => List.replicate L v)) x =
        some (List.replicate L (vs.sum / (vs.length : ℚ)))) :=
  ⟨ensembleV_eq, ensembleV_replicate⟩

/-- Witness for C8 with two members of output length 2. -/
theorem C8_ensemble_mean_witness :
    EnsembleUNet.forwardV
        ([fun _ => [(1 : ℚ), 3], fun _ => [5, 7]] :
          List (VTensor → VTensor)) ([] : VTensor) =
      some ((List.range 2).map (fun j =>
        ((([fun _ => [(1 : ℚ), 3], fun _ => [5, 7]] :
            List (VTensor → VTensor)).map
          (fun m => (m ([] : VTensor)).getD j 0)).sum) /
          ((([fun _ => [(1 : ℚ), 3], fun _ => [5, 7]] :
            List (VTensor → VTensor)).length : ℚ)))) ∧
    EnsembleUNet.forwardV
        (([(1 : ℚ), 3] : List ℚ).map
          (fun v (_ : VTensor) => List.replicate 2 v)) ([] : VTensor) =
      some (List.replicate 2 ((([(1 : ℚ), 3] : List ℚ).sum) /
        ((([(1 : ℚ), 3] : List ℚ).length : ℚ)))) :=
  ⟨C8_ensemble_mean.1 [fun _ => [(1 : ℚ), 3], fun _ => [5, 7]] [] 2
      (by simp)
      (by
        intro m hm
        rcases List.mem_cons.mp hm with h | h2
        · subst h; rfl
        · rcases List.mem_cons.mp h2 with h | h3
          · subst h; rfl
          · exact absurd h3 (List.not_mem_nil m)),
    C8_ensemble_mean.2 [(1 : ℚ), 3] 2 [] (by simp)⟩

theorem dropoutGo_keepAll (mask : Nat → Bool) (hm : ∀ j, mask j = true) :
    ∀ (j : Nat) (y : VTensor), dropoutGo 0 mask j y = y
  | _, [] => rfl
  | j, v :: rest => by
    simp [dropoutGo, hm j, dropoutGo_keepAll mask hm (j + 1) rest]

/-- C9: with dropout probability 0, the dropout stage is the identity, so
two forward passes of an EncoderBlock (or a DecoderBlock) on identical input
with identical (deterministic) submodules give identical outputs, whatever
Bernoulli draws the two passes made. -/
theorem C9_dropout_zero_identity
    (convF poolF transF convG : VTensor → VTensor) (m1 m2 : Nat → Bool)
    (h1 : MaskDrawnFrom 0 m1) (h2 : MaskDrawnFrom 0 m2) (x x1 x2 : VTensor) :
    EncoderBlock.forwardV convF poolF 0 m1 x =
      EncoderBlock.forwardV convF poolF 0 m2 x ∧
    DecoderBlock.forwardV transF convG 0 m1 x1 x2 =
      DecoderBlock.forwardV transF convG 0 m2 x1 x2 ∧
    dropoutV 0 m1 x = x := by
  have k1 : ∀ y, dropoutV 0 m1 y = y := fun y =>
    dropoutGo_keepAll m1 (h1 rfl) 0 y
  have k2 : ∀ y, dropoutV 0 m2 y = y := fun y =>
    dropoutGo_keepAll m2 (h2 rfl) 0 y
  refine ⟨?_, ?_, k1 x⟩
  · simp only [EncoderBlock.forwardV]
    rw [k1, k2]
  · simp only [DecoderBlock.forwardV]
    rw [k1, k2]

/-- Witness for C9 with two different all-keep masks. -/
theorem C9_dropout_zero_identity_witness :
    EncoderBlock.forwardV id id 0 (fun _ => true) [1, 2] =
      EncoderBlock.forwardV id id 0 (fun j => decide (0 ≤ j)) [1, 2] ∧
    DecoderBlock.forwardV id id 0 (fun _ => true) [1] [2] =
      DecoderBlock.forwardV id id 0 (fun j => decide (0 ≤ j)) [1] [2] ∧
    dropoutV 0 (fun _ => true) [1, 2] = [1, 2] :=
  C9_dropout_zero_identity id id id id (fun _ => true)
    (fun j => decide (0 ≤ j)) (fun _ j => rfl) (fun _ j => by simp)
    [1, 2] [1] [2]

theorem mkChain_length {β : Type} (blockF : Nat → Nat → β) :
    ∀ (c : Nat) (l : List Nat), (mkChain blockF c l).length = l.length
  | _, [] => rfl
  | c, a :: rest => by simp [mkChain, mkChain_length blockF a rest]

theorem backboneGo_skip {T : Type} :
    ∀ (cs : List (String × (T → T))) (acc : List T) (p : T),
      (∀ nc ∈ cs, EncoderBlocks.backboneLayers.contains nc.1 = false) →
      EncoderBlocks.backboneGo acc none p cs = (acc, none)
  | [], _, _, _ => rfl
  | (nm, f) :: rest, acc, p, h => by
    have hn := h (nm, f) (by simp)
    simp only [EncoderBlocks.backboneGo, hn]
    simp only [Bool.false_eq_true, if_false]
    exact backboneGo_skip rest acc p (fun nc hnc => h nc (by simp [hnc]))

/-- C10: plain-mode EncoderBlocks.forward returns a (skip list, deepest
feature) pair for every filter sequence of length at least 2 (the encoder
loop runs at least once), but for a length-1 filter sequence (zero encoder
blocks) it fails with an unbound e_out instead of returning; likewise in
backbone mode it fails when no named child is layer1..layer4. -/
theorem C10_encoder_totality {T : Type} (blockF : Nat → Nat → (T → T × T))
    (channels : Nat) (filters : List Nat) (x : T) (inputs pool : T → T)
    (children : List (String × (T → T))) :
    (2 ≤ filters.length →
      (EncoderBlocks.plainForward (mkChain blockF channels filters.dropLast)
        x).isSome = true) ∧
    (filters.length = 1 →
      EncoderBlocks.plainForward (mkChain blockF channels filters.dropLast)
        x = none) ∧
    ((∀ nc ∈ children, EncoderBlocks.backboneLayers.contains nc.1 = false) →
      EncoderBlocks.backboneForward inputs pool children x = none) := by
  refine ⟨?_, ?_, ?_⟩
  · intro h2
    have hlen : (mkChain blockF channels filters.dropLast).length =
        filters.length - 1 := by
      rw [mkChain_length]
      simp [List.length_dropLast]
    cases hc : mkChain blockF channels filters.dropLast with
    | nil =>
      exfalso
      rw [hc] at hlen
      simp at hlen
      omega
    | cons b bs => simp [EncoderBlocks.plainForward]
  · intro h1
    have hd : filters.dropLast = [] := by
      cases filters with
      | nil => simp at h1
      | cons a t =>
        cases t with
        | nil => rfl
        | cons c t2 => simp at h1
    rw [hd]
    rfl
  · intro hnone
    simp only [EncoderBlocks.backboneForward]
    rw [backboneGo_skip children _ _ hnone]

/-- Witness for C10: a two-level filter sequence runs, a one-level sequence
fails, and a backbone with no layerN children fails. -/
theorem C10_encoder_totality_witness :
    (EncoderBlocks.plainForward
      (mkChain (fun _ _ (n : Nat) => (n, n + 1)) 3
        ([64, 128] : List Nat).dropLast) 0).isSome = true ∧
    EncoderBlocks.plainForward
      (mkChain (fun _ _ (n : Nat) => (n, n + 1)) 3
        ([64] : List Nat).dropLast) 0 = none ∧
    EncoderBlocks.backboneForward id id [("conv1", id)] (0 : Nat) = none :=
  ⟨(C10_encoder_totality (fun _ _ (n : Nat) => (n, n + 1)) 3 [64, 128] 0 id id
      [("conv1", id)]).1 (by decide),
   (C10_encoder_totality (fun _ _ (n : Nat) => (n, n + 1)) 3 [64] 0 id id
      [("conv1", id)]).2.1 (by decide),
   (C10_encoder_totality (fun _ _ (n : Nat) => (n, n + 1)) 3 [64] 0 id id
      [("conv1", id)]).2.2 (by decide)⟩
